import Mathlib

/-!
Verification of the DOOM hardware-acceleration pipeline: a shallow embedding
of the PS-side driver (command queueing, texture-atlas upload cache, perf
counters) and the PL-side raster/present kernels, with theorems checking the
natural-language specification against this embedding.

Machine integers are modelled as `Nat` with explicit `% 2^w` where the C code
relies on wraparound; C `int` parameters that can be negative are modelled as
`Int`.  Byte buffers and memories are modelled as functions `Nat → Nat`.
-/

namespace DoomAccel

/-! ## Definitions: shallow embedding of the driver and kernels -/

/-- Little-endian byte list of length `n` for value `v` (low byte first),
matching how a packed little-endian C struct lays out an unsigned field. -/
def leBytes : Nat → Nat → List Nat
  | 0, _ => []
  | n + 1, v => (v % 256) :: leBytes n (v / 256)

/-- Value of a little-endian byte list (low byte first). -/
def natOfBytesLE : List Nat → Nat
  | [] => 0
  | b :: bs => b + 256 * natOfBytesLE bs

/-- The 32-byte `DrawCommand` wire record shared between the PS driver and the
PL raster kernel (`struct __attribute__((packed)) DrawCommand` in
`doom_raster_v1.cpp` / `doom_accel_v3.cpp` / the driver).  Field widths:
`cmd_type`, `cmap_index` are `uint8_t`; `x1`, `x2`, `y1`, `y2`, `reserved1`
are `uint16_t`; `frac`, `step`, `tex_offset`, `reserved2`, `reserved3` are
`uint32_t`. -/
structure DrawCommand where
  cmd_type : Nat
  cmap_index : Nat
  x1 : Nat
  x2 : Nat
  y1 : Nat
  y2 : Nat
  reserved1 : Nat
  frac : Nat
  step : Nat
  tex_offset : Nat
  reserved2 : Nat
  reserved3 : Nat
  deriving DecidableEq, Repr

/-- Field-width invariants of the packed C struct: every field value fits its
declared unsigned integer type. -/
def WFCommand (c : DrawCommand) : Prop :=
  c.cmd_type < 2 ^ 8 ∧ c.cmap_index < 2 ^ 8 ∧
  c.x1 < 2 ^ 16 ∧ c.x2 < 2 ^ 16 ∧ c.y1 < 2 ^ 16 ∧ c.y2 < 2 ^ 16 ∧ c.reserved1 < 2 ^ 16 ∧
  c.frac < 2 ^ 32 ∧ c.step < 2 ^ 32 ∧ c.tex_offset < 2 ^ 32 ∧
  c.reserved2 < 2 ^ 32 ∧ c.reserved3 < 2 ^ 32

instance (c : DrawCommand) : Decidable (WFCommand c) := by
  unfold WFCommand; infer_instance

/-- Bytes 0..15 of the packed struct: fields `cmd_type` through `frac`. -/
def encodeLo (c : DrawCommand) : List Nat :=
  leBytes 1 c.cmd_type ++ (leBytes 1 c.cmap_index ++
  (leBytes 2 c.x1 ++ (leBytes 2 c.x2 ++ (leBytes 2 c.y1 ++ (leBytes 2 c.y2 ++
  (leBytes 2 c.reserved1 ++ leBytes 4 c.frac))))))

/-- Bytes 16..31 of the packed struct: fields `step` through `reserved3`. -/
def encodeHi (c : DrawCommand) : List Nat :=
  leBytes 4 c.step ++ (leBytes 4 c.tex_offset ++ (leBytes 4 c.reserved2 ++
  leBytes 4 c.reserved3))

/-- Byte encoding of a `DrawCommand` as the packed little-endian C struct
stores it in the command buffer (32 bytes). -/
def encodeDrawCommand (c : DrawCommand) : List Nat :=
  encodeLo c ++ encodeHi c

/-- First 128-bit word of a stored record, as the raster kernel's 128-bit AXI
read sees it: the little-endian value of bytes 0..15. -/
def word0 (c : DrawCommand) : Nat :=
  natOfBytesLE ((encodeDrawCommand c).take 16)

/-- Second 128-bit word of a stored record: the little-endian value of
bytes 16..31. -/
def word1 (c : DrawCommand) : Nat :=
  natOfBytesLE ((encodeDrawCommand c).drop 16)

/-- Bit-range extraction `w.range(hi, lo)` of the HLS `ap_uint<128>` type. -/
def bitRange (w hi lo : Nat) : Nat :=
  (w >>> lo) % 2 ^ (hi - lo + 1)

/-- Command decode performed by `burst_read_commands` in the raster kernels:
explicit bit-range extraction of the two 128-bit command words. -/
def decodeDrawCommand (w0 w1 : Nat) : DrawCommand where
  cmd_type := bitRange w0 7 0
  cmap_index := bitRange w0 15 8
  x1 := bitRange w0 31 16
  x2 := bitRange w0 47 32
  y1 := bitRange w0 63 48
  y2 := bitRange w0 79 64
  reserved1 := bitRange w0 95 80
  frac := bitRange w0 127 96
  step := bitRange w1 31 0
  tex_offset := bitRange w1 63 32
  reserved2 := bitRange w1 95 64
  reserved3 := bitRange w1 127 96

/-- Command-buffer capacity.  `MAX_COMMANDS` is defined in the driver header
`doom_accel.h` (not part of the sources here); the repository's notes fix it
at 4000 (`CMD_BUF` is 128 KiB = 4000 x 32 B, and the HLS `CMD` port depth is
8000 words for `MAX_COMMANDS=4000`). -/
def MAX_COMMANDS : Nat := 4000

/-- Record staged by `HW_QueueColumn` after its safety clamps, or `none` when
the call stages nothing.  `x`, `y_start`, `y_end`, `light_level` are C `int`;
`frac`, `step`, `tex_offset` are `uint32_t`.  `light_level & 31` is written as
`light_level mod 32`, the same operation on the two's-complement bit
pattern. -/
def queueColumnCmd (x yStart yEnd : Int) (frac step texOffset : Nat)
    (lightLevel : Int) : Option DrawCommand :=
  if x < 0 ∨ x ≥ 320 then none
  else if (if yStart < 0 then 0 else yStart) > (if yEnd ≥ 200 then 199 else yEnd) then
    none
  else
    some
      { cmd_type := 0
        cmap_index := (lightLevel % 32).toNat
        x1 := x.toNat
        x2 := 0
        y1 := (if yStart < 0 then (0 : Int) else yStart).toNat
        y2 := (if yEnd ≥ 200 then (199 : Int) else yEnd).toNat
        reserved1 := 0
        frac := frac
        step := step
        tex_offset := texOffset
        reserved2 := 0
        reserved3 := 0 }

/-- Record staged by `HW_QueueSpan` after its safety clamps, or `none` when
the call stages nothing. -/
def queueSpanCmd (y x1 x2 : Int) (position step texOffset : Nat)
    (lightLevel : Int) : Option DrawCommand :=
  if y < 0 ∨ y ≥ 200 then none
  else if (if x1 < 0 then 0 else x1) > (if x2 ≥ 320 then 319 else x2) then none
  else
    some
      { cmd_type := 1
        cmap_index := (lightLevel % 32).toNat
        x1 := (if x1 < 0 then (0 : Int) else x1).toNat
        x2 := (if x2 ≥ 320 then (319 : Int) else x2).toNat
        y1 := y.toNat
        y2 := 0
        reserved1 := 0
        frac := position
        step := step
        tex_offset := texOffset
        reserved2 := 0
        reserved3 := 0 }

/-- Process-wide perf counter record (`HWPerfStats`).  The struct itself is
declared in the missing header `doom_accel.h`; its field set is reconstructed
from every use in the driver sources (`perf_stats.<field>` writes and the
`tex_cache_entries` snapshot). -/
structure HWPerfStats where
  queued_columns : Nat
  queued_spans : Nat
  flush_calls : Nat
  mid_frame_flushes : Nat
  max_cmds_seen : Nat
  tex_upload_bytes : Nat
  cmd_upload_bytes : Nat
  tex_cache_lookups : Nat
  tex_cache_hits : Nat
  tex_cache_misses : Nat
  tex_cache_failed_inserts : Nat
  tex_atlas_wraps : Nat
  tex_cache_entries : Nat
  fpga_wait_ns : Nat
  fpga_wait_idle_ns : Nat
  fpga_wait_done_ns : Nat
  deriving DecidableEq, Repr

/-- The all-zero counter record (`memset(&perf_stats, 0, sizeof(perf_stats))`,
and the `= {0}` initializer). -/
def zeroPerf : HWPerfStats :=
  { queued_columns := 0, queued_spans := 0, flush_calls := 0, mid_frame_flushes := 0
    max_cmds_seen := 0, tex_upload_bytes := 0, cmd_upload_bytes := 0
    tex_cache_lookups := 0, tex_cache_hits := 0, tex_cache_misses := 0
    tex_cache_failed_inserts := 0, tex_atlas_wraps := 0, tex_cache_entries := 0
    fpga_wait_ns := 0, fpga_wait_idle_ns := 0, fpga_wait_done_ns := 0 }

/-- One slot of the pointer→offset texture cache (`TexCacheEntry` on the PS
side).  `sourcePtr = 0` models the C `NULL` key of an empty slot. -/
structure CacheSlot where
  sourcePtr : Nat
  atlasOffset : Nat
  size : Int
  deriving DecidableEq, Repr

/-- Empty slot, as left by `memset(tex_offset_cache, 0, ...)`. -/
def emptySlot : CacheSlot := { sourcePtr := 0, atlasOffset := 0, size := 0 }

/-- PS driver state: the staged command batch, batches submitted to the PL,
the texture-atlas bump allocator with its pointer→offset cache and last-used
fast path, and the perf counters.  Models the hardware path (FPGA mapped,
software fallback off). -/
structure DriverState where
  staged : List DrawCommand
  submitted : List (List DrawCommand)
  texCache : Nat → CacheSlot
  texCacheCount : Nat
  atlasCursor : Nat
  lastPtr : Nat
  lastSize : Int
  lastOffset : Nat
  perf : HWPerfStats

/-- Driver state right after `Init_Doom_Accel` / `Reset_Texture_Atlas`:
empty batch, empty cache, cursor 0, fast path invalidated, counters zero. -/
def initDriverState : DriverState :=
  { staged := [], submitted := [], texCache := fun _ => emptySlot, texCacheCount := 0
    atlasCursor := 0, lastPtr := 0, lastSize := 0, lastOffset := 0, perf := zeroPerf }

/-- Size of the texture-cache hash table (`TEX_CACHE_SIZE`). -/
def TEX_CACHE_SIZE : Nat := 16384

/-- Probe budget of the first linear-probe loop (`TEX_CACHE_MAX_PROBE`). -/
def TEX_CACHE_MAX_PROBE : Nat := 64

/-- Texture atlas capacity in bytes (`TEX_ATLAS_SIZE`, 16 MiB). -/
def TEX_ATLAS_SIZE : Nat := 16 * 1024 * 1024

/-- Pointer/size avalanche hash `tex_ptr_hash`, 64-bit pointer branch
(the driver targets aarch64, where `UINTPTR_MAX > 0xFFFFFFFF`).  All
arithmetic is modulo `2^64`; the C casts `(uint64_t)(uint32_t)size`. -/
def texPtrHash (ptr : Nat) (size : Int) : Nat :=
  let size32 : Nat := (size % (2 ^ 32 : Int)).toNat
  let z0 : Nat := ptr % 2 ^ 64
  let z1 : Nat := (z0 ^^^ (size32 * 0x9E3779B1)) % 2 ^ 64
  let z2 : Nat := z1 ^^^ (z1 >>> 33)
  let z3 : Nat := (z2 * 0xFF51AFD7ED558CCD) % 2 ^ 64
  let z4 : Nat := z3 ^^^ (z3 >>> 33)
  let z5 : Nat := (z4 * 0xC4CEB9FE1A85EC53) % 2 ^ 64
  let z6 : Nat := z5 ^^^ (z5 >>> 33)
  (z6 % 2 ^ 32) &&& (TEX_CACHE_SIZE - 1)

/-- Outcome of a linear-probe pass over the pointer→offset cache. -/
inductive ProbeOutcome where
  | hit (offset : Nat)
  | empty (idx : Nat)
  | exhausted
  deriving DecidableEq, Repr

/-- Linear probe of `count` slots starting at probe distance `start` from the
home bucket: stop at the first `(source, size)` match (cache hit) or at the
first empty slot. -/
def probeFrom (cache : Nat → CacheSlot) (hash source : Nat) (size : Int) :
    Nat → Nat → ProbeOutcome
  | _, 0 => .exhausted
  | start, n + 1 =>
    let idx := (hash + start) % TEX_CACHE_SIZE
    let slot := cache idx
    if slot.sourcePtr = source ∧ slot.size = size then .hit slot.atlasOffset
    else if slot.sourcePtr = 0 then .empty idx
    else probeFrom cache hash source size (start + 1) n

/-- Combined lookup of `Upload_Texture_Data`: the bounded probe loop
(64 slots), then — only when it neither hit nor found an empty slot — the
fallback full scan over the remaining slots. -/
def lookupTexCache (cache : Nat → CacheSlot) (hash source : Nat) (size : Int) :
    ProbeOutcome :=
  match probeFrom cache hash source size 0 TEX_CACHE_MAX_PROBE with
  | .exhausted => probeFrom cache hash source size TEX_CACHE_MAX_PROBE
      (TEX_CACHE_SIZE - TEX_CACHE_MAX_PROBE)
  | r => r

/-- Function update helper for table-like state components. -/
def upd {α : Type} (f : Nat → α) (i : Nat) (v : α) : Nat → α :=
  fun j => if j = i then v else f j

/-- Upload_Texture_Data: return the cached offset for `(source, size)` when
present (fast path, then bounded probe, then fallback scan); otherwise wrap
the allocator if the payload does not fit, copy the payload to the next
16-byte-aligned cursor, record the mapping (home-bucket replacement when the
table is saturated), refresh the last-used fast path and return the aligned
offset.  Returns `(0, s)` unchanged for a NULL source or `size ≤ 0`. -/
def uploadTextureData (s : DriverState) (source : Nat) (size : Int) :
    Nat × DriverState :=
  if source = 0 ∨ size ≤ 0 then (0, s)
  else
    let s := { s with perf := { s.perf with
      tex_cache_lookups := s.perf.tex_cache_lookups + 1 } }
    if source = s.lastPtr ∧ size = s.lastSize then
      (s.lastOffset, { s with perf := { s.perf with
        tex_cache_hits := s.perf.tex_cache_hits + 1 } })
    else
      let hash := texPtrHash source size
      match lookupTexCache s.texCache hash source size with
      | .hit off =>
        (off, { s with
          lastPtr := source, lastSize := size, lastOffset := off
          perf := { s.perf with tex_cache_hits := s.perf.tex_cache_hits + 1 } })
      | outcome =>
        let s := { s with perf := { s.perf with
          tex_cache_misses := s.perf.tex_cache_misses + 1 } }
        let wrap := s.atlasCursor + size.toNat > TEX_ATLAS_SIZE
        let s := if wrap then
            { s with
              atlasCursor := 0
              texCache := fun _ => emptySlot
              texCacheCount := 0
              lastPtr := 0, lastSize := 0, lastOffset := 0
              perf := { s.perf with tex_atlas_wraps := s.perf.tex_atlas_wraps + 1 } }
          else s
        let emptyIdx : Option Nat :=
          if wrap then none else
            match outcome with
            | .empty idx => some idx
            | _ => none
        let aligned := ((s.atlasCursor + 15) / 16) * 16
        let s := { s with
          atlasCursor := aligned + size.toNat
          perf := { s.perf with
            tex_upload_bytes := s.perf.tex_upload_bytes + size.toNat } }
        let s :=
          match emptyIdx with
          | some idx =>
            { s with
              texCache := upd s.texCache idx
                { sourcePtr := source, atlasOffset := aligned, size := size }
              texCacheCount := s.texCacheCount + 1 }
          | none =>
            { s with
              texCache := upd s.texCache hash
                { sourcePtr := source, atlasOffset := aligned, size := size }
              perf := { s.perf with
                tex_cache_failed_inserts := s.perf.tex_cache_failed_inserts + 1 } }
        (aligned, { s with lastPtr := source, lastSize := size, lastOffset := aligned })

/-- HW_FlushBatchInternal on the hardware path: a non-empty staged batch is
copied to the PL-visible command region and submitted as one
`MODE_DRAW_AND_DMA` invocation; the staged count resets to zero.  An empty
batch is a no-op. -/
def flushBatchInternal (s : DriverState) : DriverState :=
  if s.staged.length = 0 then s
  else
    { s with
      staged := []
      submitted := s.submitted ++ [s.staged]
      perf := { s.perf with
        flush_calls := s.perf.flush_calls + 1
        cmd_upload_bytes := s.perf.cmd_upload_bytes + 32 * s.staged.length } }

/-- HW_QueueColumn on the hardware path: clamp (possibly rejecting the call),
flush the batch mid-frame when it is already at capacity, append the staged
record and bump the column counters. -/
def hwQueueColumn (s : DriverState) (x yStart yEnd : Int)
    (frac step texOffset : Nat) (lightLevel : Int) : DriverState :=
  match queueColumnCmd x yStart yEnd frac step texOffset lightLevel with
  | none => s
  | some c =>
    let s :=
      if s.staged.length ≥ MAX_COMMANDS then
        flushBatchInternal { s with perf := { s.perf with
          mid_frame_flushes := s.perf.mid_frame_flushes + 1 } }
      else s
    let s := { s with staged := s.staged ++ [c] }
    { s with perf := { s.perf with
      queued_columns := s.perf.queued_columns + 1
      max_cmds_seen := max s.perf.max_cmds_seen s.staged.length } }

/-- HW_QueueSpan on the hardware path: same contract as `hwQueueColumn` with
a `kind=1` record and the span counters. -/
def hwQueueSpan (s : DriverState) (y x1 x2 : Int)
    (position step texOffset : Nat) (lightLevel : Int) : DriverState :=
  match queueSpanCmd y x1 x2 position step texOffset lightLevel with
  | none => s
  | some c =>
    let s :=
      if s.staged.length ≥ MAX_COMMANDS then
        flushBatchInternal { s with perf := { s.perf with
          mid_frame_flushes := s.perf.mid_frame_flushes + 1 } }
      else s
    let s := { s with staged := s.staged ++ [c] }
    { s with perf := { s.perf with
      queued_spans := s.perf.queued_spans + 1
      max_cmds_seen := max s.perf.max_cmds_seen s.staged.length } }

/-- HW_GetAndResetPerfStats: copy the counter record out, patch the
`tex_cache_entries` field with the live pointer→offset cache population
(`tex_cache_count`), then zero the accumulated record.  `tex_cache_count`
itself is not reset. -/
def getAndResetPerfStats (s : DriverState) : HWPerfStats × DriverState :=
  ({ s.perf with tex_cache_entries := s.texCacheCount }, { s with perf := zeroPerf })

/-- On-chip state of the raster kernel: the 320x200 indexed framebuffer, the
32x256 colormap, the direct-mapped 256-slot texture-column cache (data, tag,
valid), and the single-slot flat cache.  Byte tables are functions from the
byte index. -/
structure RasterState where
  fb : Nat → Nat
  colormap : Nat → Nat
  texData : Nat → Nat → Nat
  texTag : Nat → Nat
  texValid : Nat → Bool
  flatCache : Nat → Nat
  flatTag : Nat
  flatValid : Bool

/-- Direct-mapped cache index `tex_cache_hash`: `(tex_offset >> 7) & 255`. -/
def rasterTexHash (texOffset : Nat) : Nat :=
  (texOffset >>> 7) &&& 255

/-- The 128-byte texture column that `fetch_texture_to_cache` bursts from the
atlas: byte `i` of the 8 words starting at word `tex_offset / 16`. -/
def texColumnBytes (atlas : Nat → Nat) (texOffset : Nat) (i : Nat) : Nat :=
  atlas (texOffset / 16 * 16 + i)

/-- The 4096-byte flat that `burst_read_flat` bursts from the atlas. -/
def flatBytes (atlas : Nat → Nat) (texOffset : Nat) (i : Nat) : Nat :=
  atlas (texOffset / 16 * 16 + i)

/-- DRAW_COL_LOOP: write `n` pixels down column `x1` starting at row `y`,
sampling `tex[(frac >> 16) & 127]` through the colormap row `cmapBase` and
advancing the Q16.16 `frac` by `step` (uint32 wraparound) per pixel. -/
def drawColPixels (cmap tex : Nat → Nat) (cmapBase x1 : Nat) :
    Nat → Nat → Nat → Nat → (Nat → Nat) → (Nat → Nat)
  | _, _, _, 0, fb => fb
  | y, frac, step, n + 1, fb =>
    drawColPixels cmap tex cmapBase x1 (y + 1) ((frac + step) % 2 ^ 32) step n
      (upd fb (y * 320 + x1) (cmap (cmapBase + tex ((frac >>> 16) &&& 127))))

/-- DRAW_SPAN_LOOP: write `n` pixels along row `y1` starting at column `x`,
sampling the flat cache at the packed 64x64 tap
`spot = ((pos >> 26) | ((pos >> 4) & 0x0fc0)) & 4095` and advancing `pos` by
`step` (uint32 wraparound) per pixel. -/
def drawSpanPixels (cmap flat : Nat → Nat) (cmapBase y1 : Nat) :
    Nat → Nat → Nat → Nat → (Nat → Nat) → (Nat → Nat)
  | _, _, _, 0, fb => fb
  | x, pos, step, n + 1, fb =>
    drawSpanPixels cmap flat cmapBase y1 (x + 1) ((pos + step) % 2 ^ 32) step n
      (upd fb (y1 * 320 + x)
        (cmap (cmapBase + flat (((pos >>> 26) ||| ((pos >>> 4) &&& 0x0fc0)) &&& 4095))))

/-- Defensive clamp of a column command's start row
(`y_start = (cmd.y1 < 200) ? cmd.y1 : 199`). -/
def colYStart (cmd : DrawCommand) : Nat :=
  if cmd.y1 < 200 then cmd.y1 else 199

/-- Defensive clamp of a column command's end row. -/
def colYEnd (cmd : DrawCommand) : Nat :=
  if cmd.y2 < 200 then cmd.y2 else 199

/-- Defensive clamp of a span command's start column. -/
def spanXStart (cmd : DrawCommand) : Nat :=
  if cmd.x1 < 320 then cmd.x1 else 319

/-- Defensive clamp of a span command's end column. -/
def spanXEnd (cmd : DrawCommand) : Nat :=
  if cmd.x2 < 320 then cmd.x2 else 319

/-- Column command execution: defensive clamps, texture-column cache lookup
with fill on miss, then the II=1 draw loop using the local column copy. -/
def execColumn (atlas : Nat → Nat) (cmd : DrawCommand) (s : RasterState) :
    RasterState :=
  if cmd.x1 ≥ 320 then s
  else if colYStart cmd > colYEnd cmd then s
  else
    let cmapBase := cmd.cmap_index <<< 8
    let hash := rasterTexHash cmd.tex_offset
    let hit := s.texValid hash && (s.texTag hash == cmd.tex_offset)
    let s1 :=
      if hit then s
      else
        { s with
          texData := upd s.texData hash
            (fun i => if i < 128 then texColumnBytes atlas cmd.tex_offset i
                      else s.texData hash i)
          texTag := upd s.texTag hash cmd.tex_offset
          texValid := upd s.texValid hash true }
    let localTex := s1.texData hash
    { s1 with
      fb := drawColPixels s1.colormap localTex cmapBase cmd.x1 (colYStart cmd)
        cmd.frac cmd.step (colYEnd cmd - colYStart cmd + 1) s1.fb }

/-- Span command execution: defensive clamps, single-slot flat cache fill on
tag mismatch, then the II=1 draw loop over the row. -/
def execSpan (atlas : Nat → Nat) (cmd : DrawCommand) (s : RasterState) :
    RasterState :=
  if cmd.y1 ≥ 200 then s
  else if spanXStart cmd > spanXEnd cmd then s
  else
    let cmapBase := cmd.cmap_index <<< 8
    let s1 :=
      if s.flatValid && (s.flatTag == cmd.tex_offset) then s
      else
        { s with
          flatCache := fun i => if i < 4096 then flatBytes atlas cmd.tex_offset i
                                else s.flatCache i
          flatTag := cmd.tex_offset
          flatValid := true }
    { s1 with
      fb := drawSpanPixels s1.colormap s1.flatCache cmapBase cmd.y1 (spanXStart cmd)
        cmd.frac cmd.step (spanXEnd cmd - spanXStart cmd + 1) s1.fb }

/-- BATCH_LOOP body: dispatch one command on its `cmd_type`; a command whose
kind is neither column (0) nor span (1) falls through both branches. -/
def execCommand (atlas : Nat → Nat) (cmd : DrawCommand) (s : RasterState) :
    RasterState :=
  if cmd.cmd_type = 0 then execColumn atlas cmd s
  else if cmd.cmd_type = 1 then execSpan atlas cmd s
  else s

/-- DRAW_BATCH: execute the commands in submission order. -/
def execBatch (atlas : Nat → Nat) : List DrawCommand → RasterState → RasterState
  | [], s => s
  | cmd :: rest, s => execBatch atlas rest (execCommand atlas cmd s)

/-- DMA_LOOP of `doom_raster_v1.cpp`: copy 128-bit words `0..chunks-1` of the
local framebuffer over the DDR output buffer, leaving the rest of DDR
untouched (`word w` covers bytes `16*w .. 16*w+15`). -/
def dmaWords (fb ddr : Nat → Nat) : Nat → (Nat → Nat)
  | 0 => ddr
  | n + 1 => fun i => if i / 16 = n then fb i else dmaWords fb ddr n i

/-- DMA row count selection of `doom_raster_v1.cpp`: `VIEW_HEIGHT` (168) rows
when the `present_rows` register is zero, otherwise `present_rows` clamped to
the 200-row screen. -/
def rasterDmaRows (presentRows : Nat) : Nat :=
  if presentRows > 0 then (if presentRows > 200 then 200 else presentRows) else 168

/-- MODE_DMA_OUT / MODE_DRAW_AND_DMA output step of `doom_raster_v1.cpp`:
burst the first `rasterDmaRows` rows (320 bytes each) to DDR. -/
def rasterDmaOut (fb ddr : Nat → Nat) (presentRows : Nat) : Nat → Nat :=
  dmaWords fb ddr (320 * rasterDmaRows presentRows / 16)

/-- Row-count register value programmed by `HW_SetRasterSharedBRAM`: 200 rows
in shared-BRAM handoff mode, 168 rows in the legacy DDR view-only mode. -/
def sharedRowsReg (sharedBramEnabled : Bool) : Nat :=
  if sharedBramEnabled then 200 else 168

/-- PRESENT_X5_PACK_8888: emit the 1600 output pixels of one row (4 per
128-bit word) from the 320-entry palette-expanded row, carrying the running
quotient/remainder `(q, r)` that advances by 4 fifths per word. -/
def pack8888Words (row : Nat → Nat) : Nat → Nat → Nat → List Nat
  | 0, _, _ => []
  | n + 1, q, r =>
    let c0 := row q
    let c1 := row (if q < 319 then q + 1 else q)
    let p1 := if r = 4 then c1 else c0
    let p2 := if r = 3 ∨ r = 4 then c1 else c0
    let p3 := if r = 2 ∨ r = 3 ∨ r = 4 then c1 else c0
    c0 :: p1 :: p2 :: p3 ::
      pack8888Words row n (if r + 4 ≥ 5 then q + 1 else q)
        (if r + 4 ≥ 5 then r + 4 - 5 else r + 4)

/-- One full 32-bpp output row: 400 words, `(q, r)` starting at `(0, 0)`. -/
def present8888Row (row : Nat → Nat) : List Nat :=
  pack8888Words row 400 0 0

/-- PRESENT_X5_PACK_565 per-lane step (the 8-pixel unrolled inner loop of
each word iterates this once per pixel): emit the source pixel at the clamped
running quotient, then advance `r` by one and carry into `q` at 5. -/
def pack565Pixels (row : Nat → Nat) : Nat → Nat → Nat → List Nat
  | 0, _, _ => []
  | n + 1, q, r =>
    row (if q < 320 then q else 319) ::
      pack565Pixels row n (if r + 1 ≥ 5 then q + 1 else q)
        (if r + 1 ≥ 5 then 0 else r + 1)

/-- One full 16-bpp output row: 1600 pixels (200 words of 8), `(q, r)`
starting at `(0, 0)`. -/
def present565Row (row : Nat → Nat) : List Nat :=
  pack565Pixels row 1600 0 0

/-- A record staged by `HW_QueueColumn` or `HW_QueueSpan`, together with the
`uint32_t` width invariants of the `frac`/`step`/`tex_offset` parameters. -/
def StagedRecord (c : DrawCommand) : Prop :=
  (∃ x yStart yEnd : Int, ∃ frac step texOffset : Nat, ∃ lightLevel : Int,
    frac < 2 ^ 32 ∧ step < 2 ^ 32 ∧ texOffset < 2 ^ 32 ∧
    queueColumnCmd x yStart yEnd frac step texOffset lightLevel = some c) ∨
  (∃ y x1 x2 : Int, ∃ position step texOffset : Nat, ∃ lightLevel : Int,
    position < 2 ^ 32 ∧ step < 2 ^ 32 ∧ texOffset < 2 ^ 32 ∧
    queueSpanCmd y x1 x2 position step texOffset lightLevel = some c)

/-- Concrete column record for witnesses: staged by
`HW_QueueColumn(100, 10, 13, 0x20000, 0x10000, 64, 5)`. -/
def exColumnCmd : DrawCommand :=
  { cmd_type := 0, cmap_index := 5, x1 := 100, x2 := 0, y1 := 10, y2 := 13
    reserved1 := 0, frac := 0x20000, step := 0x10000, tex_offset := 64
    reserved2 := 0, reserved3 := 0 }

/-- Concrete record staged by the clamping call
`HW_QueueColumn(100, -7, 250, 0, 0, 0, 3)`. -/
def exClampedColumn : DrawCommand :=
  { cmd_type := 0, cmap_index := 3, x1 := 100, x2 := 0, y1 := 0, y2 := 199
    reserved1 := 0, frac := 0, step := 0, tex_offset := 0
    reserved2 := 0, reserved3 := 0 }

/-- Concrete record staged by the clamping call
`HW_QueueSpan(50, -1, 500, 0, 0, 0, 3)`. -/
def exClampedSpan : DrawCommand :=
  { cmd_type := 1, cmap_index := 3, x1 := 0, x2 := 319, y1 := 50, y2 := 0
    reserved1 := 0, frac := 0, step := 0, tex_offset := 0
    reserved2 := 0, reserved3 := 0 }

/-- Palette expansion stage (`PRESENT_INDEX_TO_RGBA` / `INDEX_TO_565`): the
packed-color row fed to the pack loops is the palette table applied to the
indexed source row. -/
def expandRow (palette srcRow : Nat → Nat) : Nat → Nat :=
  fun x => palette (srcRow x)

/-- Concrete raster state for witnesses. -/
def exRasterState : RasterState :=
  { fb := fun _ => 0, colormap := fun i => i % 256, texData := fun _ _ => 0
    texTag := fun _ => 0, texValid := fun _ => false, flatCache := fun _ => 0
    flatTag := 0, flatValid := false }

/-- Concrete command with an unknown kind byte (2). -/
def exUnknownCmd : DrawCommand :=
  { cmd_type := 2, cmap_index := 0, x1 := 10, x2 := 20, y1 := 30, y2 := 40
    reserved1 := 0, frac := 0, step := 0, tex_offset := 0
    reserved2 := 0, reserved3 := 0 }

/-- Concrete texture atlas for witnesses. -/
def exAtlas : Nat → Nat := fun i => i % 251

/-- Concrete driver state with a full staged batch (4000 commands). -/
def exFullState : DriverState :=
  { initDriverState with staged := List.replicate 4000 exColumnCmd }

/-! ## Theorems -/

theorem leBytes_length (n v : Nat) : (leBytes n v).length = n := by
  induction n generalizing v with
  | zero => rfl
  | succ n ih => simp [leBytes, ih]

theorem natOfBytesLE_leBytes (n v : Nat) : natOfBytesLE (leBytes n v) = v % 256 ^ n := by
  induction n generalizing v with
  | zero => simp [leBytes, natOfBytesLE, Nat.mod_one]
  | succ n ih =>
    simp only [leBytes, natOfBytesLE, ih]
    rw [pow_succ', Nat.mod_mul]

theorem natOfBytesLE_append (xs ys : List Nat) :
    natOfBytesLE (xs ++ ys) = natOfBytesLE xs + 256 ^ xs.length * natOfBytesLE ys := by
  induction xs with
  | nil => simp [natOfBytesLE]
  | cons b bs ih =>
    show natOfBytesLE (b :: (bs ++ ys)) = _
    rw [natOfBytesLE, ih, List.length_cons, natOfBytesLE]
    ring

theorem encodeLo_length (c : DrawCommand) : (encodeLo c).length = 16 := by
  simp [encodeLo, leBytes_length]

theorem encodeHi_length (c : DrawCommand) : (encodeHi c).length = 16 := by
  simp [encodeHi, leBytes_length]

theorem take16_encode (c : DrawCommand) : (encodeDrawCommand c).take 16 = encodeLo c :=
  List.take_left' (encodeLo_length c)

theorem drop16_encode (c : DrawCommand) : (encodeDrawCommand c).drop 16 = encodeHi c :=
  List.drop_left' (encodeLo_length c)

theorem encodeDrawCommand_length (c : DrawCommand) :
    (encodeDrawCommand c).length = 32 := by
  simp [encodeDrawCommand, encodeLo_length, encodeHi_length]

/-- Closed form of the first command word under the field-width invariants. -/
theorem word0_eq (c : DrawCommand) (h : WFCommand c) :
    word0 c = c.cmd_type + 2 ^ 8 * c.cmap_index + 2 ^ 16 * c.x1 + 2 ^ 32 * c.x2 +
      2 ^ 48 * c.y1 + 2 ^ 64 * c.y2 + 2 ^ 80 * c.reserved1 + 2 ^ 96 * c.frac := by
  obtain ⟨h1, h2, h3, h4, h5, h6, h7, h8, _⟩ := h
  rw [word0, take16_encode, encodeLo]
  simp only [natOfBytesLE_append, natOfBytesLE_leBytes, leBytes_length]
  have e1 : c.cmd_type % 256 ^ 1 = c.cmd_type := Nat.mod_eq_of_lt (by norm_num at h1 ⊢; omega)
  have e2 : c.cmap_index % 256 ^ 1 = c.cmap_index := Nat.mod_eq_of_lt (by norm_num at h2 ⊢; omega)
  have e3 : c.x1 % 256 ^ 2 = c.x1 := Nat.mod_eq_of_lt (by norm_num at h3 ⊢; omega)
  have e4 : c.x2 % 256 ^ 2 = c.x2 := Nat.mod_eq_of_lt (by norm_num at h4 ⊢; omega)
  have e5 : c.y1 % 256 ^ 2 = c.y1 := Nat.mod_eq_of_lt (by norm_num at h5 ⊢; omega)
  have e6 : c.y2 % 256 ^ 2 = c.y2 := Nat.mod_eq_of_lt (by norm_num at h6 ⊢; omega)
  have e7 : c.reserved1 % 256 ^ 2 = c.reserved1 := Nat.mod_eq_of_lt (by norm_num at h7 ⊢; omega)
  have e8 : c.frac % 256 ^ 4 = c.frac := Nat.mod_eq_of_lt (by norm_num at h8 ⊢; omega)
  rw [e1, e2, e3, e4, e5, e6, e7, e8]
  norm_num
  ring

/-- Closed form of the second command word under the field-width invariants. -/
theorem word1_eq (c : DrawCommand) (h : WFCommand c) :
    word1 c = c.step + 2 ^ 32 * c.tex_offset + 2 ^ 64 * c.reserved2 +
      2 ^ 96 * c.reserved3 := by
  obtain ⟨_, _, _, _, _, _, _, _, h9, h10, h11, h12⟩ := h
  rw [word1, drop16_encode, encodeHi]
  simp only [natOfBytesLE_append, natOfBytesLE_leBytes, leBytes_length]
  have e9 : c.step % 256 ^ 4 = c.step := Nat.mod_eq_of_lt (by norm_num at h9 ⊢; omega)
  have e10 : c.tex_offset % 256 ^ 4 = c.tex_offset :=
    Nat.mod_eq_of_lt (by norm_num at h10 ⊢; omega)
  have e11 : c.reserved2 % 256 ^ 4 = c.reserved2 :=
    Nat.mod_eq_of_lt (by norm_num at h11 ⊢; omega)
  have e12 : c.reserved3 % 256 ^ 4 = c.reserved3 :=
    Nat.mod_eq_of_lt (by norm_num at h12 ⊢; omega)
  rw [e9, e10, e11, e12]
  norm_num
  ring

/-- Decoding the two little-endian 128-bit words of a well-formed record
returns exactly the record's fields. -/
theorem decode_word_roundtrip (c : DrawCommand) (h : WFCommand c) :
    decodeDrawCommand (word0 c) (word1 c) = c := by
  obtain ⟨h1, h2, h3, h4, h5, h6, h7, h8, h9, h10, h11, h12⟩ := h
  rw [word0_eq c ⟨h1, h2, h3, h4, h5, h6, h7, h8, h9, h10, h11, h12⟩,
    word1_eq c ⟨h1, h2, h3, h4, h5, h6, h7, h8, h9, h10, h11, h12⟩]
  cases c
  simp only [decodeDrawCommand, bitRange, Nat.shiftRight_eq_div_pow, DrawCommand.mk.injEq]
  norm_num at h1 h2 h3 h4 h5 h6 h7 h8 h9 h10 h11 h12 ⊢
  refine ⟨by omega, by omega, by omega, by omega, by omega, by omega, by omega, by omega,
    by omega, by omega, by omega, by omega⟩

/-- Everything `HW_QueueColumn`'s clamps guarantee about a record it stages. -/
theorem queueColumnCmd_spec {x yStart yEnd : Int} {frac step texOffset : Nat}
    {lightLevel : Int} {c : DrawCommand}
    (h : queueColumnCmd x yStart yEnd frac step texOffset lightLevel = some c) :
    c.cmd_type = 0 ∧ c.cmap_index < 32 ∧ c.x1 < 320 ∧ c.y1 ≤ c.y2 ∧ c.y2 < 200 ∧
    c.x2 = 0 ∧ c.reserved1 = 0 ∧ c.frac = frac ∧ c.step = step ∧
    c.tex_offset = texOffset ∧ c.reserved2 = 0 ∧ c.reserved3 = 0 := by
  unfold queueColumnCmd at h
  split_ifs at h <;> simp only [Option.some.injEq, reduceCtorEq] at h <;>
    (subst h;
     exact ⟨rfl, by dsimp only; omega, by dsimp only; omega, by dsimp only; omega,
       by dsimp only; omega, rfl, rfl, rfl, rfl, rfl, rfl, rfl⟩)

/-- Everything `HW_QueueSpan`'s clamps guarantee about a record it stages. -/
theorem queueSpanCmd_spec {y x1 x2 : Int} {position step texOffset : Nat}
    {lightLevel : Int} {c : DrawCommand}
    (h : queueSpanCmd y x1 x2 position step texOffset lightLevel = some c) :
    c.cmd_type = 1 ∧ c.cmap_index < 32 ∧ c.y1 < 200 ∧ c.x1 ≤ c.x2 ∧ c.x2 < 320 ∧
    c.y2 = 0 ∧ c.reserved1 = 0 ∧ c.frac = position ∧ c.step = step ∧
    c.tex_offset = texOffset ∧ c.reserved2 = 0 ∧ c.reserved3 = 0 := by
  unfold queueSpanCmd at h
  split_ifs at h <;> simp only [Option.some.injEq, reduceCtorEq] at h <;>
    (subst h;
     exact ⟨rfl, by dsimp only; omega, by dsimp only; omega, by dsimp only; omega,
       by dsimp only; omega, rfl, rfl, rfl, rfl, rfl, rfl, rfl⟩)

/-- Staged records satisfy the packed-struct field-width invariants. -/
theorem stagedRecord_wf {c : DrawCommand} (h : StagedRecord c) : WFCommand c := by
  rcases h with ⟨x, ys, ye, f, st, toff, l, hf, hst, hto, h⟩ |
    ⟨y, a, b, p, st, toff, l, hp, hst, hto, h⟩
  · obtain ⟨h1, h2, h3, h4, h5, h6, h7, h8, h9, h10, h11, h12⟩ := queueColumnCmd_spec h
    exact ⟨by omega, by omega, by omega, by omega, by omega, by omega, by omega,
      by omega, by omega, by omega, by omega, by omega⟩
  · obtain ⟨h1, h2, h3, h4, h5, h6, h7, h8, h9, h10, h11, h12⟩ := queueSpanCmd_spec h
    exact ⟨by omega, by omega, by omega, by omega, by omega, by omega, by omega,
      by omega, by omega, by omega, by omega, by omega⟩

/-- C1: for every `DrawCommand` staged by `queue_column`/`queue_span`, the
encoded record is exactly 32 bytes, `tex_off` starts at byte 20, and decoding
the record's two little-endian 128-bit words by the raster kernel's bit-range
extraction yields back exactly the staged fields. -/
theorem drawCommand_wire_roundtrip (c : DrawCommand) (h : StagedRecord c) :
    (encodeDrawCommand c).length = 32 ∧
    ((encodeDrawCommand c).drop 20).take 4 = leBytes 4 c.tex_offset ∧
    decodeDrawCommand (word0 c) (word1 c) = c := by
  refine ⟨encodeDrawCommand_length c, ?_, decode_word_roundtrip c (stagedRecord_wf h)⟩
  have h20 : (encodeDrawCommand c).drop 20 =
      leBytes 4 c.tex_offset ++ (leBytes 4 c.reserved2 ++ leBytes 4 c.reserved3) := by
    have : (encodeDrawCommand c).drop 20 = ((encodeDrawCommand c).drop 16).drop 4 := by
      rw [List.drop_drop]
    rw [this, drop16_encode, encodeHi, List.drop_left' (leBytes_length 4 c.step)]
  rw [h20, List.take_left' (leBytes_length 4 c.tex_offset)]

/-- Witness for C1 at the concrete record `exColumnCmd`. -/
theorem drawCommand_wire_roundtrip_witness :
    (encodeDrawCommand exColumnCmd).length = 32 ∧
    ((encodeDrawCommand exColumnCmd).drop 20).take 4 = leBytes 4 exColumnCmd.tex_offset ∧
    decodeDrawCommand (word0 exColumnCmd) (word1 exColumnCmd) = exColumnCmd :=
  drawCommand_wire_roundtrip exColumnCmd
    (Or.inl ⟨100, 10, 13, 0x20000, 0x10000, 64, 5,
      by decide, by decide, by decide, by decide⟩)

/-- C6: every record staged by `queue_column` satisfies
`0 ≤ x1 < 320` and `0 ≤ y1 ≤ y2 < 200`, and every record staged by
`queue_span` satisfies `0 ≤ y1 < 200` and `x1 ≤ x2 < 320` (out-of-range
inputs are clamped, or the call stages nothing and returns `none`). -/
theorem queue_clamp_invariants (x yStart yEnd : Int) (frac step texOffset : Nat)
    (lightLevel : Int) (cc : DrawCommand)
    (y sx1 sx2 : Int) (position sstep stexOffset : Nat) (slightLevel : Int)
    (cs : DrawCommand)
    (hc : queueColumnCmd x yStart yEnd frac step texOffset lightLevel = some cc)
    (hs : queueSpanCmd y sx1 sx2 position sstep stexOffset slightLevel = some cs) :
    (cc.x1 < 320 ∧ cc.y1 ≤ cc.y2 ∧ cc.y2 < 200) ∧
    (cs.y1 < 200 ∧ cs.x1 ≤ cs.x2 ∧ cs.x2 < 320) := by
  obtain ⟨_, _, h3, h4, h5, _⟩ := queueColumnCmd_spec hc
  obtain ⟨_, _, g3, g4, g5, _⟩ := queueSpanCmd_spec hs
  exact ⟨⟨h3, h4, h5⟩, ⟨g3, g4, g5⟩⟩

/-- Witness for C6 at concrete clamping calls (a column with a negative
`y_start` and an over-long `y_end`, and a span with both ends clamped). -/
theorem queue_clamp_invariants_witness :
    queueColumnCmd 100 (-7) 250 0 0 0 3 = some exClampedColumn ∧
    queueSpanCmd 50 (-1) 500 0 0 0 3 = some exClampedSpan ∧
    ((exClampedColumn.x1 < 320 ∧ exClampedColumn.y1 ≤ exClampedColumn.y2 ∧
        exClampedColumn.y2 < 200) ∧
      (exClampedSpan.y1 < 200 ∧ exClampedSpan.x1 ≤ exClampedSpan.x2 ∧
        exClampedSpan.x2 < 320)) :=
  ⟨by decide, by decide,
    queue_clamp_invariants 100 (-7) 250 0 0 0 3 exClampedColumn
      50 (-1) 500 0 0 0 3 exClampedSpan (by decide) (by decide)⟩

/-- The pack loops only consult the row through lookups, so running them on
the identity row yields the list of source-column indices. -/
theorem pack8888Words_map (row : Nat → Nat) (n q r : Nat) :
    pack8888Words row n q r = (pack8888Words (fun i => i) n q r).map row := by
  induction n generalizing q r with
  | zero => rfl
  | succ n ih =>
    simp only [pack8888Words, List.map_cons, apply_ite row, ih]

theorem pack565Pixels_map (row : Nat → Nat) (n q r : Nat) :
    pack565Pixels row n q r = (pack565Pixels (fun i => i) n q r).map row := by
  induction n generalizing q r with
  | zero => rfl
  | succ n ih =>
    simp only [pack565Pixels, List.map_cons, apply_ite row, ih]

/-- Invariant of the 32-bpp pack loop: when `(q, r)` is the running
quotient/remainder of the first output column `4*s` of the current word by 5,
the remaining `n` words emit exactly the nearest-neighbor source indices. -/
theorem pack8888Words_nearest (n : Nat) : ∀ s q r : Nat,
    5 * q + r = 4 * s → r < 5 → 4 * s + 4 * n ≤ 1600 →
    pack8888Words (fun i => i) n q r =
      (List.range' (4 * s) (4 * n)).map (fun c => c / 5) := by
  induction n with
  | zero => intro s q r _ _ _; simp [pack8888Words]
  | succ n ih =>
    intro s q r hqr hr hbound
    have e4 : 4 * (n + 1) = 4 * n + 1 + 1 + 1 + 1 := by ring
    simp only [pack8888Words, e4, List.range'_succ, List.map_cons, List.cons.injEq]
    refine ⟨by omega, ?_, ?_, ?_, ?_⟩
    · split_ifs <;> omega
    · split_ifs <;> omega
    · split_ifs <;> omega
    · have es : 4 * s + 1 + 1 + 1 + 1 = 4 * (s + 1) := by ring
      rw [es]
      by_cases hc : r + 4 ≥ 5
      · rw [if_pos hc, if_pos hc]
        exact ih (s + 1) (q + 1) (r + 4 - 5) (by omega) (by omega) (by omega)
      · rw [if_neg hc, if_neg hc]
        exact ih (s + 1) q (r + 4) (by omega) (by omega) (by omega)

/-- The running `(q, r)` state of the 32-bpp pack loop visits exactly the
nearest-neighbor source indices `c / 5`. -/
theorem pack8888_id_indices :
    pack8888Words (fun i => i) 400 0 0 = (List.range 1600).map (fun c => c / 5) := by
  have h := pack8888Words_nearest 400 0 0 0 (by omega) (by omega) (by omega)
  simpa [List.range_eq_range'] using h

/-- Invariant of the 16-bpp pack lane: when `(q, r)` is the running
quotient/remainder of the current output column `s` by 5, the remaining `n`
pixels are exactly the nearest-neighbor source indices. -/
theorem pack565Pixels_nearest (n : Nat) : ∀ s q r : Nat,
    5 * q + r = s → r < 5 → s + n ≤ 1600 →
    pack565Pixels (fun i => i) n q r =
      (List.range' s n).map (fun c => c / 5) := by
  induction n with
  | zero => intro s q r _ _ _; simp [pack565Pixels]
  | succ n ih =>
    intro s q r hqr hr hbound
    simp only [pack565Pixels, List.range'_succ, List.map_cons, List.cons.injEq]
    refine ⟨by split_ifs <;> omega, ?_⟩
    by_cases hc : r + 1 ≥ 5
    · rw [if_pos hc, if_pos hc]
      exact ih (s + 1) (q + 1) 0 (by omega) (by omega) (by omega)
    · rw [if_neg hc, if_neg hc]
      exact ih (s + 1) q (r + 1) (by omega) (by omega) (by omega)

/-- The running `(q, r)` state of the 16-bpp pack loop visits exactly the
nearest-neighbor source indices `c / 5`. -/
theorem pack565_id_indices :
    pack565Pixels (fun i => i) 1600 0 0 = (List.range 1600).map (fun c => c / 5) := by
  have h := pack565Pixels_nearest 1600 0 0 0 (by omega) (by omega) (by omega)
  simpa [List.range_eq_range'] using h

/-- C3: for every source row and both output formats, the present kernel's 5x
horizontal expansion computed with the running quotient/remainder `(q, r)`
state is bit-exactly nearest-neighbor: output column `c` (0..1599) carries
the palette-expanded source pixel of column `c / 5`. -/
theorem present_x5_nearest_neighbor (palette srcRow : Nat → Nat) (c : Nat)
    (hc : c < 1600) :
    (present8888Row (expandRow palette srcRow))[c]? = some (palette (srcRow (c / 5))) ∧
    (present565Row (expandRow palette srcRow))[c]? = some (palette (srcRow (c / 5))) := by
  constructor
  · rw [present8888Row, pack8888Words_map, pack8888_id_indices, List.getElem?_map,
      List.getElem?_map, List.getElem?_range hc]
    rfl
  · rw [present565Row, pack565Pixels_map, pack565_id_indices, List.getElem?_map,
      List.getElem?_map, List.getElem?_range hc]
    rfl

/-- Witness for C3: a concrete palette and source row at output column 7
(source column 1). -/
theorem present_x5_nearest_neighbor_witness :
    (present8888Row (expandRow (fun i => 10 * i) (fun x => x % 7)))[7]? =
      some ((fun i => 10 * i) ((fun x : Nat => x % 7) (7 / 5))) ∧
    (present565Row (expandRow (fun i => 10 * i) (fun x => x % 7)))[7]? =
      some ((fun i => 10 * i) ((fun x : Nat => x % 7) (7 / 5))) :=
  present_x5_nearest_neighbor (fun i => 10 * i) (fun x => x % 7) 7 (by decide)

/-- C9: a batch command whose kind byte is neither 0 (column) nor 1 (span)
leaves the raster state — framebuffer, texture-column cache, flat cache —
entirely unchanged, and batch processing continues with the next command. -/
theorem unknown_kind_skipped (atlas : Nat → Nat) (cmd : DrawCommand)
    (s : RasterState) (rest : List DrawCommand)
    (h0 : cmd.cmd_type ≠ 0) (h1 : cmd.cmd_type ≠ 1) :
    execCommand atlas cmd s = s ∧
    execBatch atlas (cmd :: rest) s = execBatch atlas rest s := by
  have he : execCommand atlas cmd s = s := by
    unfold execCommand
    rw [if_neg h0, if_neg h1]
  exact ⟨he, by rw [execBatch, he]⟩

/-- Witness for C9 at a concrete kind-2 command. -/
theorem unknown_kind_skipped_witness :
    execCommand (fun _ => 0) exUnknownCmd exRasterState = exRasterState ∧
    execBatch (fun _ => 0) (exUnknownCmd :: []) exRasterState =
      execBatch (fun _ => 0) [] exRasterState :=
  unknown_kind_skipped (fun _ => 0) exUnknownCmd exRasterState []
    (by decide) (by decide)

/-- Pointwise description of the word-copy DMA loop. -/
theorem dmaWords_spec (fb ddr : Nat → Nat) (n i : Nat) :
    dmaWords fb ddr n i = if i / 16 < n then fb i else ddr i := by
  induction n with
  | zero => simp [dmaWords]
  | succ n ih =>
    show (if i / 16 = n then fb i else dmaWords fb ddr n i) = _
    rw [ih]
    split_ifs <;> first | rfl | omega

/-- C7: with the row-count register programmed by `HW_SetRasterSharedBRAM`,
legacy (DDR view-only) mode DMAs exactly the first 168 rows (bytes
`0..320*168-1`) and leaves every byte from row 168 on unchanged, while
shared-handoff mode programs 200 rows and the DMA covers all 200 rows. -/
theorem raster_dma_row_policy (fb ddr : Nat → Nat) (i j k : Nat)
    (hi : i < 320 * 168) (hj : 320 * 168 ≤ j) (hk : k < 320 * 200) :
    rasterDmaOut fb ddr (sharedRowsReg false) i = fb i ∧
    rasterDmaOut fb ddr (sharedRowsReg false) j = ddr j ∧
    rasterDmaOut fb ddr (sharedRowsReg true) k = fb k := by
  have h168 : 320 * rasterDmaRows (sharedRowsReg false) / 16 = 3360 := by decide
  have h200 : 320 * rasterDmaRows (sharedRowsReg true) / 16 = 4000 := by decide
  unfold rasterDmaOut
  rw [h168, h200, dmaWords_spec, dmaWords_spec, dmaWords_spec]
  refine ⟨if_pos (by omega), if_neg (by omega), if_pos (by omega)⟩

/-- Witness for C7 at the boundary bytes: the last view byte, the first HUD
byte, and the last byte of the full frame. -/
theorem raster_dma_row_policy_witness :
    rasterDmaOut (fun _ => 1) (fun _ => 2) (sharedRowsReg false) 53759 = 1 ∧
    rasterDmaOut (fun _ => 1) (fun _ => 2) (sharedRowsReg false) 53760 = 2 ∧
    rasterDmaOut (fun _ => 1) (fun _ => 2) (sharedRowsReg true) 63999 = 1 :=
  raster_dma_row_policy (fun _ => 1) (fun _ => 2) 53759 53760 63999
    (by decide) (by decide) (by decide)

theorem upd_same {α : Type} (f : Nat → α) (i : Nat) (v : α) : upd f i v i = v := by
  simp [upd]

theorem upd_ne {α : Type} (f : Nat → α) (i j : Nat) (v : α) (h : j ≠ i) :
    upd f i v j = f j := by
  simp [upd, h]

/-- Framebuffer cells outside the written column segment are untouched. -/
theorem drawColPixels_untouched (cmap tex : Nat → Nat) (cmapBase x1 : Nat)
    (n : Nat) : ∀ y frac stp : Nat, ∀ fb : Nat → Nat, ∀ i : Nat,
    (∀ k, k < n → i ≠ (y + k) * 320 + x1) →
    drawColPixels cmap tex cmapBase x1 y frac stp n fb i = fb i := by
  induction n with
  | zero => intro y frac stp fb i _; rfl
  | succ n ih =>
    intro y frac stp fb i hne
    simp only [drawColPixels]
    rw [ih (y + 1) _ _ _ i (fun k hk => by have := hne (k + 1) (by omega); omega)]
    exact upd_ne fb _ i _ (by have := hne 0 (by omega); omega)

/-- Pixel `k` of the column walk carries the colormap-lit texture sample at
`frac + k * step` (uint32 wraparound), exactly as the claim's per-pixel
formula states. -/
theorem drawColPixels_written (cmap tex : Nat → Nat) (cmapBase x1 : Nat)
    (n : Nat) : ∀ k y frac stp : Nat, ∀ fb : Nat → Nat, k < n → frac < 2 ^ 32 →
    drawColPixels cmap tex cmapBase x1 y frac stp n fb ((y + k) * 320 + x1) =
      cmap (cmapBase + tex ((((frac + k * stp) % 2 ^ 32) >>> 16) &&& 127)) := by
  induction n with
  | zero => intro k _ _ _ _ hk; exact absurd hk (by omega)
  | succ n ih =>
    intro k y frac stp fb hk hfrac
    simp only [drawColPixels]
    cases k with
    | zero =>
      rw [drawColPixels_untouched cmap tex cmapBase x1 n (y + 1) _ _ _ _
        (fun j hj => by omega)]
      have hidx : (y + 0) * 320 + x1 = y * 320 + x1 := by ring
      rw [hidx, upd_same]
      have harg : (frac + 0 * stp) % 2 ^ 32 = frac := by
        simpa using Nat.mod_eq_of_lt hfrac
      rw [harg]
    | succ k =>
      have hyk : (y + (k + 1)) * 320 + x1 = ((y + 1) + k) * 320 + x1 := by ring
      rw [hyk, ih k (y + 1) ((frac + stp) % 2 ^ 32) stp _ (by omega)
        (Nat.mod_lt _ (by norm_num))]
      have harg : ((frac + stp) % 2 ^ 32 + k * stp) % 2 ^ 32 =
          (frac + (k + 1) * stp) % 2 ^ 32 := by
        rw [Nat.mod_add_mod]
        ring_nf
      rw [harg]

/-- Whatever the cache outcome, the local texture buffer that the column walk
samples agrees with the atlas column at `tex_offset` on all 128 bytes, and
the framebuffer result is the plain draw loop over it.  The coherence
hypothesis states that valid texture-cache slots hold the atlas bytes of
their tag (the only way the kernel ever fills them). -/
theorem execColumn_localTex (atlas : Nat → Nat) (cmd : DrawCommand)
    (s : RasterState) (hx : ¬cmd.x1 ≥ 320) (hys : ¬colYStart cmd > colYEnd cmd)
    (hcoh : ∀ h, s.texValid h = true →
      ∀ i, i < 128 → s.texData h i = texColumnBytes atlas (s.texTag h) i) :
    ∃ tex : Nat → Nat,
      (∀ i, i < 128 → tex i = texColumnBytes atlas cmd.tex_offset i) ∧
      (execColumn atlas cmd s).fb =
        drawColPixels s.colormap tex (cmd.cmap_index <<< 8) cmd.x1 (colYStart cmd)
          cmd.frac cmd.step (colYEnd cmd - colYStart cmd + 1) s.fb := by
  unfold execColumn
  rw [if_neg hx, if_neg hys]
  cases hb : s.texValid (rasterTexHash cmd.tex_offset) &&
      (s.texTag (rasterTexHash cmd.tex_offset) == cmd.tex_offset) with
  | true =>
    rw [Bool.and_eq_true, beq_iff_eq] at hb
    refine ⟨s.texData (rasterTexHash cmd.tex_offset), ?_, ?_⟩
    · intro i hi
      rw [hcoh _ hb.1 i hi, hb.2]
    · simp only [hb.1, hb.2, beq_self_eq_true, Bool.and_self, if_true]
  | false =>
    refine ⟨fun i => if i < 128 then texColumnBytes atlas cmd.tex_offset i
      else s.texData (rasterTexHash cmd.tex_offset) i, ?_, ?_⟩
    · intro i hi
      simp [hi]
    · simp only [hb, Bool.false_eq_true, if_false, upd_same]

/-- C2: executing a DRAW_BATCH on a column command (`kind = 0`) with
`x1 < 320` and clamped `y_start ≤ y ≤ y_end` writes
`fb[y*320 + x1] = colormap[light*256 + column[(frac >> 16) & 127]]` with
`frac` advanced by `step` per pixel (pixel `y` samples
`frac + (y - y_start) * step` mod `2^32`); a column with `y1 = y2` touches
exactly the one cell `y_start*320 + x1`. -/
theorem column_draw_pixels (atlas : Nat → Nat) (cmd : DrawCommand)
    (s : RasterState) (y : Nat)
    (hk : cmd.cmd_type = 0) (hx : cmd.x1 < 320) (hfrac : cmd.frac < 2 ^ 32)
    (hcoh : ∀ h, s.texValid h = true →
      ∀ i, i < 128 → s.texData h i = texColumnBytes atlas (s.texTag h) i)
    (hy1 : colYStart cmd ≤ y) (hy2 : y ≤ colYEnd cmd) :
    (execBatch atlas [cmd] s).fb (y * 320 + cmd.x1) =
      s.colormap (cmd.cmap_index * 256 +
        texColumnBytes atlas cmd.tex_offset
          ((((cmd.frac + (y - colYStart cmd) * cmd.step) % 2 ^ 32) >>> 16) &&& 127)) ∧
    (cmd.y1 = cmd.y2 →
      ∀ i, i ≠ colYStart cmd * 320 + cmd.x1 →
        (execBatch atlas [cmd] s).fb i = s.fb i) := by
  have hbatch : execBatch atlas [cmd] s = execColumn atlas cmd s := by
    show execCommand atlas cmd s = _
    unfold execCommand
    rw [if_pos hk]
  obtain ⟨tex, htex, hfb⟩ := execColumn_localTex atlas cmd s (by omega) (by omega) hcoh
  rw [hbatch, hfb]
  constructor
  · have hidx : y * 320 + cmd.x1 = (colYStart cmd + (y - colYStart cmd)) * 320 + cmd.x1 := by
      omega
    rw [hidx, drawColPixels_written s.colormap tex (cmd.cmap_index <<< 8) cmd.x1
      (colYEnd cmd - colYStart cmd + 1) (y - colYStart cmd) (colYStart cmd)
      cmd.frac cmd.step s.fb (by omega) hfrac]
    have hlt : (((cmd.frac + (y - colYStart cmd) * cmd.step) % 2 ^ 32) >>> 16) &&& 127 < 128 :=
      Nat.lt_succ_of_le Nat.and_le_right
    rw [htex _ hlt, Nat.shiftLeft_eq]
  · intro heq i hi
    refine drawColPixels_untouched _ _ _ _ _ _ _ _ _ i (fun k hkk => ?_)
    have hse : colYStart cmd = colYEnd cmd := by
      unfold colYStart colYEnd
      rw [heq]
    omega

/-- Witness for C2: the concrete column `exColumnCmd` drawn at row 12 on a
fresh raster state. -/
theorem column_draw_pixels_witness :
    (execBatch exAtlas [exColumnCmd] exRasterState).fb (12 * 320 + exColumnCmd.x1) =
      exRasterState.colormap (exColumnCmd.cmap_index * 256 +
        texColumnBytes exAtlas exColumnCmd.tex_offset
          ((((exColumnCmd.frac + (12 - colYStart exColumnCmd) * exColumnCmd.step) % 2 ^ 32)
              >>> 16) &&& 127)) ∧
    (exColumnCmd.y1 = exColumnCmd.y2 →
      ∀ i, i ≠ colYStart exColumnCmd * 320 + exColumnCmd.x1 →
        (execBatch exAtlas [exColumnCmd] exRasterState).fb i = exRasterState.fb i) :=
  column_draw_pixels exAtlas exColumnCmd exRasterState 12 (by decide) (by decide)
    (by decide) (by intro h hv; simp [exRasterState] at hv) (by decide) (by decide)

/-- C4: when `queue_column`/`queue_span` is called with the staged batch
already holding `MAX_COMMANDS` commands (and the new command passes the
clamps), a blocking mid-frame flush submits the full batch before the new
command is appended: `mid_frame_flushes` increments by exactly one, the full
batch is submitted (no command dropped), the new batch holds exactly the new
command, and the staged count never exceeds `MAX_COMMANDS`. -/
theorem midframe_flush_on_full (s t : DriverState)
    (x yStart yEnd : Int) (frac stp toff : Nat) (light : Int) (c : DrawCommand)
    (sy sx1 sx2 : Int) (pos pstp ptoff : Nat) (plight : Int) (cs : DrawCommand)
    (hc : queueColumnCmd x yStart yEnd frac stp toff light = some c)
    (hs : queueSpanCmd sy sx1 sx2 pos pstp ptoff plight = some cs)
    (hfull : s.staged.length = MAX_COMMANDS) :
    ((hwQueueColumn s x yStart yEnd frac stp toff light).perf.mid_frame_flushes =
        s.perf.mid_frame_flushes + 1 ∧
      (hwQueueColumn s x yStart yEnd frac stp toff light).submitted =
        s.submitted ++ [s.staged] ∧
      (hwQueueColumn s x yStart yEnd frac stp toff light).staged = [c]) ∧
    ((hwQueueSpan s sy sx1 sx2 pos pstp ptoff plight).perf.mid_frame_flushes =
        s.perf.mid_frame_flushes + 1 ∧
      (hwQueueSpan s sy sx1 sx2 pos pstp ptoff plight).submitted =
        s.submitted ++ [s.staged] ∧
      (hwQueueSpan s sy sx1 sx2 pos pstp ptoff plight).staged = [cs]) ∧
    (hwQueueColumn t x yStart yEnd frac stp toff light).staged.length ≤ MAX_COMMANDS ∧
    (hwQueueSpan t sy sx1 sx2 pos pstp ptoff plight).staged.length ≤ MAX_COMMANDS := by
  have hcap : s.staged.length ≥ MAX_COMMANDS := by omega
  have hnz : ¬s.staged.length = 0 := by
    rw [hfull]; decide
  refine ⟨?_, ?_, ?_, ?_⟩
  · unfold hwQueueColumn
    rw [hc]
    dsimp only
    rw [if_pos hcap]
    unfold flushBatchInternal
    dsimp only
    rw [if_neg hnz]
    exact ⟨rfl, rfl, rfl⟩
  · unfold hwQueueSpan
    rw [hs]
    dsimp only
    rw [if_pos hcap]
    unfold flushBatchInternal
    dsimp only
    rw [if_neg hnz]
    exact ⟨rfl, rfl, rfl⟩
  · unfold hwQueueColumn
    rw [hc]
    dsimp only
    by_cases hcapt : t.staged.length ≥ MAX_COMMANDS
    · rw [if_pos hcapt]
      unfold flushBatchInternal
      dsimp only
      by_cases hz : t.staged.length = 0
      · rw [if_pos hz]
        simp [MAX_COMMANDS]
        omega
      · rw [if_neg hz]
        simp [MAX_COMMANDS]
    · rw [if_neg hcapt]
      simp only [List.length_append, List.length_cons, List.length_nil]
      omega
  · unfold hwQueueSpan
    rw [hs]
    dsimp only
    by_cases hcapt : t.staged.length ≥ MAX_COMMANDS
    · rw [if_pos hcapt]
      unfold flushBatchInternal
      dsimp only
      by_cases hz : t.staged.length = 0
      · rw [if_pos hz]
        simp [MAX_COMMANDS]
        omega
      · rw [if_neg hz]
        simp [MAX_COMMANDS]
    · rw [if_neg hcapt]
      simp only [List.length_append, List.length_cons, List.length_nil]
      omega

/-- Witness for C4: queueing into the full batch `exFullState`. -/
theorem midframe_flush_on_full_witness :
    ((hwQueueColumn exFullState 100 10 13 0x20000 0x10000 64 5).perf.mid_frame_flushes =
        exFullState.perf.mid_frame_flushes + 1 ∧
      (hwQueueColumn exFullState 100 10 13 0x20000 0x10000 64 5).submitted =
        exFullState.submitted ++ [exFullState.staged] ∧
      (hwQueueColumn exFullState 100 10 13 0x20000 0x10000 64 5).staged = [exColumnCmd]) ∧
    ((hwQueueSpan exFullState 50 (-1) 500 0 0 0 3).perf.mid_frame_flushes =
        exFullState.perf.mid_frame_flushes + 1 ∧
      (hwQueueSpan exFullState 50 (-1) 500 0 0 0 3).submitted =
        exFullState.submitted ++ [exFullState.staged] ∧
      (hwQueueSpan exFullState 50 (-1) 500 0 0 0 3).staged = [exClampedSpan]) ∧
    (hwQueueColumn exFullState 100 10 13 0x20000 0x10000 64 5).staged.length ≤
      MAX_COMMANDS ∧
    (hwQueueSpan exFullState 50 (-1) 500 0 0 0 3).staged.length ≤ MAX_COMMANDS :=
  midframe_flush_on_full exFullState exFullState 100 10 13 0x20000 0x10000 64 5
    exColumnCmd 50 (-1) 500 0 0 0 3 exClampedSpan (by decide) (by decide)
    (by have h : exFullState.staged = List.replicate 4000 exColumnCmd := rfl
        rw [h, List.length_replicate, MAX_COMMANDS])

/-- Every return path of a successful `Upload_Texture_Data` call refreshes
the last-used fast path with the key, the size, and the returned offset. -/
theorem upload_sets_last (s : DriverState) (source : Nat) (size : Int)
    (off : Nat) (s1 : DriverState)
    (hsrc : source ≠ 0) (hsz : 0 < size)
    (h1 : uploadTextureData s source size = (off, s1)) :
    s1.lastPtr = source ∧ s1.lastSize = size ∧ s1.lastOffset = off := by
  unfold uploadTextureData at h1
  rw [if_neg (by push_neg; exact ⟨hsrc, by omega⟩)] at h1
  by_cases hfast : source = s.lastPtr ∧ size = s.lastSize
  · rw [if_pos hfast] at h1
    rw [Prod.mk.injEq] at h1
    obtain ⟨ho, hs1⟩ := h1
    subst hs1
    exact ⟨hfast.1.symm, hfast.2.symm, ho⟩
  · rw [if_neg hfast] at h1
    dsimp only at h1
    split at h1 <;>
      (rw [Prod.mk.injEq] at h1; obtain ⟨ho, hs1⟩ := h1; subst hs1; exact ⟨rfl, rfl, ho⟩)

/-- C5: two successive `upload` calls with the same `(source_key, size)` pair
and no intervening reset or wrap return the same atlas offset; the second
call is resolved from the last-used fast path, bumps only the lookup/hit
counters, and does not advance the atlas cursor, the pointer-offset cache, or
its population count. -/
theorem upload_idempotent (s : DriverState) (source : Nat) (size : Int)
    (off : Nat) (s1 : DriverState)
    (hsrc : source ≠ 0) (hsz : 0 < size)
    (h1 : uploadTextureData s source size = (off, s1)) :
    uploadTextureData s1 source size =
      (off, { s1 with perf := { s1.perf with
        tex_cache_lookups := s1.perf.tex_cache_lookups + 1
        tex_cache_hits := s1.perf.tex_cache_hits + 1 } }) ∧
    (uploadTextureData s1 source size).2.atlasCursor = s1.atlasCursor ∧
    (uploadTextureData s1 source size).2.texCache = s1.texCache ∧
    (uploadTextureData s1 source size).2.texCacheCount = s1.texCacheCount := by
  obtain ⟨hp, hsz', hoff⟩ := upload_sets_last s source size off s1 hsrc hsz h1
  have hcall : uploadTextureData s1 source size =
      (off, { s1 with perf := { s1.perf with
        tex_cache_lookups := s1.perf.tex_cache_lookups + 1
        tex_cache_hits := s1.perf.tex_cache_hits + 1 } }) := by
    unfold uploadTextureData
    rw [if_neg (by push_neg; exact ⟨hsrc, by omega⟩)]
    rw [if_pos ⟨hp.symm, hsz'.symm⟩]
    rw [hoff]
  exact ⟨hcall, by rw [hcall], by rw [hcall], by rw [hcall]⟩

/-- Witness for C5: a fresh-state upload of key 42, size 128, repeated. -/
theorem upload_idempotent_witness :
    uploadTextureData (uploadTextureData initDriverState 42 128).2 42 128 =
      ((uploadTextureData initDriverState 42 128).1,
        { (uploadTextureData initDriverState 42 128).2 with perf :=
          { (uploadTextureData initDriverState 42 128).2.perf with
            tex_cache_lookups :=
              (uploadTextureData initDriverState 42 128).2.perf.tex_cache_lookups + 1
            tex_cache_hits :=
              (uploadTextureData initDriverState 42 128).2.perf.tex_cache_hits + 1 } }) ∧
    (uploadTextureData (uploadTextureData initDriverState 42 128).2 42 128).2.atlasCursor =
      (uploadTextureData initDriverState 42 128).2.atlasCursor ∧
    (uploadTextureData (uploadTextureData initDriverState 42 128).2 42 128).2.texCache =
      (uploadTextureData initDriverState 42 128).2.texCache ∧
    (uploadTextureData (uploadTextureData initDriverState 42 128).2 42 128).2.texCacheCount =
      (uploadTextureData initDriverState 42 128).2.texCacheCount :=
  upload_idempotent initDriverState 42 128 (uploadTextureData initDriverState 42 128).1
    (uploadTextureData initDriverState 42 128).2 (by decide) (by decide) rfl

/-- C10: `upload` called with a NULL source pointer or a non-positive size
returns offset 0 and changes no state at all; yet 0 is also the offset
legitimately returned by the first real upload into a fresh atlas, which does
advance the cursor — so a 0 return is ambiguous to the caller. -/
theorem upload_invalid_noop (s : DriverState) (source : Nat) (size : Int)
    (hz : source = 0 ∨ size ≤ 0) :
    uploadTextureData s source size = (0, s) ∧
    (uploadTextureData initDriverState 42 128).1 = 0 ∧
    (uploadTextureData initDriverState 42 128).2.atlasCursor = 128 := by
  refine ⟨?_, ?_, ?_⟩
  · unfold uploadTextureData
    rw [if_pos hz]
  · decide
  · decide

/-- Witness for C10 at a NULL key and at a negative size. -/
theorem upload_invalid_noop_witness :
    uploadTextureData initDriverState 0 128 = (0, initDriverState) ∧
    (uploadTextureData initDriverState 42 128).1 = 0 ∧
    (uploadTextureData initDriverState 42 128).2.atlasCursor = 128 :=
  upload_invalid_noop initDriverState 0 128 (Or.inl rfl)

/-- Counterexample to C8 as stated: after one successful upload (a reachable
state), the record returned by the second of two back-to-back
`sample_and_reset` calls has `tex_cache_entries = 1`, not zero — the live
cache population survives the reset. -/
theorem perf_second_sample_not_all_zero :
    ((getAndResetPerfStats (getAndResetPerfStats
        (uploadTextureData initDriverState 42 128).2).2).1).tex_cache_entries ≠ 0 := by
  decide

/-- C8 (amended): `sample_and_reset` returns the accumulated record with
`tex_cache_entries` patched to the live pointer-offset cache population and
zeroes the accumulated counters; a second back-to-back call therefore returns
a record whose accumulated fields are all zero, but whose
`tex_cache_entries` still equals the persistent cache population, which is
not reset. -/
theorem perf_sample_and_reset_spec (s : DriverState) :
    (getAndResetPerfStats s).1 = { s.perf with tex_cache_entries := s.texCacheCount } ∧
    (getAndResetPerfStats s).2.perf = zeroPerf ∧
    (getAndResetPerfStats (getAndResetPerfStats s).2).1 =
      { zeroPerf with tex_cache_entries := s.texCacheCount } :=
  ⟨rfl, rfl, rfl⟩

end DoomAccel
